import Mathlib

/-!
Shallow embedding of the sociwave backend monitoring core:
`src/backend/app/services/monitor_service.py` (rule matching, dedup cache,
monitoring cycle), `src/backend/app/services/facebook_service.py` (remote
reply/ existence-check behavior over abstract HTTP outcomes) and
`src/backend/app/scheduler.py` (per-tenant job registry).  Remote HTTP
traffic is abstracted into outcome values supplied by a stub; everything
else follows the Python source line by line.
-/

namespace Sociwave

/-- `CommentAuthor` pydantic model (models.py lines 18-23). -/
structure CommentAuthor where
  id : String
  name : String
deriving DecidableEq

/-- `Reel` pydantic model (models.py lines 8-16); the parse-only
`updated_time` timestamp and display-only flags are not modeled. -/
structure Reel where
  id : String
  description : Option String := none
deriving DecidableEq

/-- `Comment` pydantic model (models.py lines 25-37).  `replies` holds the
nested replies (themselves comments, possibly truncated), `reply_count` the
optional remote summary total, `has_replied` the flag precomputed by
`FacebookService.get_comments` when a nested reply is authored by the page.
Parse-only timestamps are not modeled. -/
inductive Comment : Type where
  | mk (id : String) (message : String) (from_user : Option CommentAuthor)
      (replies : Option (List Comment)) (reply_count : Option Nat) (has_replied : Bool) : Comment

/-- Field accessor for `Comment.id`. -/
def Comment.id : Comment → String
  | .mk i _ _ _ _ _ => i

/-- Field accessor for `Comment.message`. -/
def Comment.message : Comment → String
  | .mk _ m _ _ _ _ => m

/-- Field accessor for `Comment.from_user` (the `from` field of the API). -/
def Comment.from_user : Comment → Option CommentAuthor
  | .mk _ _ f _ _ _ => f

/-- Field accessor for `Comment.replies`. -/
def Comment.replies : Comment → Option (List Comment)
  | .mk _ _ _ r _ _ => r

/-- Field accessor for `Comment.reply_count`. -/
def Comment.reply_count : Comment → Option Nat
  | .mk _ _ _ _ rc _ => rc

/-- Field accessor for `Comment.has_replied`. -/
def Comment.has_replied : Comment → Bool
  | .mk _ _ _ _ _ h => h

/-- `Rule` pydantic model (models.py lines 40-48). -/
structure Rule where
  object_id : String
  match_words : List String := []
  reply_message : String
  inbox_message : Option String := none
  enabled : Bool := false
deriving DecidableEq

/-- Python truthiness of an optional string (used by
`if rule.inbox_message:` in monitor_service.py line 173): `None` and the
empty string are falsy. -/
def strOptTruthy : Option String → Bool
  | none => false
  | some s => !s.isEmpty

/-- Python `str.lower()`, modeled per character on the string's character
list (`Char.toLower` agrees with Python's lowercasing on ASCII). -/
def lowerChars (s : List Char) : List Char := s.map Char.toLower

/-- Python `sub` being an initial segment of `s`, on character lists. -/
def beginsWith : List Char → List Char → Bool
  | _, [] => true
  | [], _ :: _ => false
  | c :: cs, d :: ds => c == d && beginsWith cs ds

/-- Python substring containment `sub in s` (contiguous occurrence), on
character lists. -/
def containsSub : List Char → List Char → Bool
  | [], sub => beginsWith [] sub
  | c :: cs, sub => beginsWith (c :: cs) sub || containsSub cs sub

namespace FacebookService

/-- Outcome of one HTTP request issued by `FacebookService`: success, an
HTTP error status carrying the Facebook `error.code` of the response body
(if any), or a non-HTTP exception. -/
inductive FBHttpResult where
  | success
  | httpError (status : Nat) (fbErrorCode : Option Nat)
  | otherError
deriving DecidableEq

/-- `FacebookService.reply_to_comment` (facebook_service.py lines 214-229):
POST the public reply; any `HTTPError` raises an `HTTPException` with the
response status (502 when no response), any other exception raises 502.
There is no duplicate-reply tolerance branch on this path.  The error value
is the status code of the raised `HTTPException`. -/
def reply_to_comment : FBHttpResult → Except Nat Unit
  | FBHttpResult.success => Except.ok ()
  | FBHttpResult.httpError s _ => Except.error s
  | FBHttpResult.otherError => Except.error 502

/-- `FacebookService.send_private_reply` (facebook_service.py lines
231-281): POST the private reply; on an `HTTPError` whose body carries
Facebook error code 10900 (activity already replied to) it returns `{}`
instead of raising; any other error raises an `HTTPException` with status
502. -/
def send_private_reply : FBHttpResult → Except Nat Unit
  | FBHttpResult.success => Except.ok ()
  | FBHttpResult.httpError _ c => if c = some 10900 then Except.ok () else Except.error 502
  | FBHttpResult.otherError => Except.error 502

/-- Outcome of the GET performed by `has_replied_to_comment`: success with
the `from.id` of each fetched reply (absent `from` is `none`), an
`HTTPError`, or another exception. -/
inductive RepliesFetch where
  | success (authorIds : List (Option String))
  | httpError
  | otherError
deriving DecidableEq

/-- `FacebookService.has_replied_to_comment` (facebook_service.py lines
181-212): fetch the replies of the comment and report whether any is
authored by the page; on `HTTPError` or any other exception return `False`
instead of raising. -/
def has_replied_to_comment (page_id : String) : RepliesFetch → Bool
  | RepliesFetch.success authorIds => authorIds.any (fun a => a == some page_id)
  | RepliesFetch.httpError => false
  | RepliesFetch.otherError => false

end FacebookService

/-- Observable action performed while running a monitoring cycle: the
remote calls issued through `FacebookService` plus the evaluation of the
rule matcher on a comment. -/
inductive Event where
  | getReels
  | getComments (reelId : String)
  | hasRepliedCall (commentId : String)
  | publicReplyPost (commentId : String) (message : String)
  | privateReplyPost (commentId : String) (message : String)
  | matchCheck (commentId : String)
deriving DecidableEq

/-- A `FacebookService` instance as seen by `MonitorService`: its
configured `page_id` plus the remote data/outcomes each call would produce.
`hasRepliedResult` is `Except` so the monitor's defensive handler for a
raising existence check can be expressed (the shipped implementation never
raises, it returns `false` on failure). -/
structure FacebookStub where
  page_id : String
  reels : List Reel
  comments : String → List Comment
  hasRepliedResult : String → Except Unit Bool
  replyResponse : String → FacebookService.FBHttpResult
  privateResponse : String → FacebookService.FBHttpResult

namespace MonitorService

/-- The mutable per-instance state of `MonitorService` (monitor_service.py
lines 12-17): `_replied_comment_ids` (the dedup set) and
`_comment_reply_cache` (the cached remote existence checks, newest entry
first). -/
structure MonitorState where
  replied_comment_ids : List String := []
  comment_reply_cache : List (String × Bool) := []
deriving DecidableEq

/-- A fresh `MonitorService(...)` instance: both caches empty. -/
def MonitorState.init : MonitorState := {}

/-- `MonitorService._matches` (monitor_service.py lines 19-23): lowercase
the comment; an empty keyword list or one containing the literal `"."`
matches unconditionally; otherwise some lowercased keyword must occur as a
substring of the lowercased comment. -/
def _matches (comment_text : String) (rule : Rule) : Bool :=
  let lower_comment := lowerChars comment_text.data
  if rule.match_words.isEmpty || rule.match_words.contains "." then
    true
  else
    rule.match_words.any (fun keyword => containsSub lower_comment (lowerChars keyword.data))

/-- `MonitorService._is_page_comment` (monitor_service.py lines 43-50):
the comment is authored by the page itself. -/
def _is_page_comment (comment : Comment) (page_id : String) : Bool :=
  match comment.from_user with
  | some u => u.id == page_id
  | none => false

/-- `MonitorService._has_page_replied` (monitor_service.py lines 25-41):
return the cached answer when present; otherwise call
`has_replied_to_comment` (here an oracle that may raise), cache the
result, additionally mark the comment replied when the answer is `True`,
and on an exception return `False` without touching any state.  Also
returns the remote calls made. -/
def _has_page_replied (fbCall : String → Except Unit Bool) (st : MonitorState) (commentId : String) :
    Bool × MonitorState × List Event :=
  match st.comment_reply_cache.lookup commentId with
  | some cached => (cached, st, [])
  | none =>
    match fbCall commentId with
    | Except.ok has_replied =>
      let st1 := { st with comment_reply_cache := (commentId, has_replied) :: st.comment_reply_cache }
      let st2 := if has_replied then
          { st1 with replied_comment_ids := st1.replied_comment_ids.insert commentId }
        else st1
      (has_replied, st2, [Event.hasRepliedCall commentId])
    | Except.error _ => (false, st, [Event.hasRepliedCall commentId])

/-- The nested-replies satisfaction check (monitor_service.py lines
116-122): start from `comment.has_replied`; when that is false and nested
replies were fetched, the comment counts as answered if any nested reply is
authored by the page. -/
def nestedHasReply (page_id : String) (comment : Comment) : Bool :=
  let has_reply := comment.has_replied
  let replies := (comment.replies).getD []
  if !has_reply && !replies.isEmpty then
    replies.any (fun reply =>
      match reply.from_user with
      | some u => u.id == page_id
      | none => false)
  else
    has_reply

/-- The truncation test deciding whether the remote fallback check runs
(monitor_service.py lines 129-137): only when the `reply_count` summary is
present and strictly exceeds the number of nested replies fetched; an
absent summary never triggers the fallback. -/
def fallbackNeeded (comment : Comment) : Bool :=
  let replies := (comment.replies).getD []
  match comment.reply_count with
  | some reply_count => decide (reply_count > replies.length)
  | none => false

/-- Per-cycle counters of `perform_monitoring_cycle` mutated inside the
comment loop: `api_calls`, `replies_sent`, `inbox_sent`. -/
structure CycleCounters where
  api_calls : Nat
  replies_sent : Nat
  inbox_sent : Nat
deriving DecidableEq

/-- Tail of the comment loop (monitor_service.py lines 148-187): evaluate
the rule match; on a match count the API call, attempt the public reply,
and only on its success increment `replies_sent`, mark the comment replied
and attempt the optional private reply (whose own failure is swallowed).
A failed public reply is caught: no state change beyond the api-call
counter, and the loop proceeds. -/
def attemptReply (fb : FacebookStub) (rule : Rule) (st : MonitorState) (ctr : CycleCounters)
    (comment : Comment) : (MonitorState × CycleCounters) × List Event :=
  let matched := _matches comment.message rule
  if !matched then
    ((st, ctr), [Event.matchCheck comment.id])
  else
    let ctr1 := { ctr with api_calls := ctr.api_calls + 1 }
    match FacebookService.reply_to_comment (fb.replyResponse comment.id) with
    | Except.error _ =>
      ((st, ctr1), [Event.matchCheck comment.id, Event.publicReplyPost comment.id rule.reply_message])
    | Except.ok _ =>
      let ctr2 := { ctr1 with replies_sent := ctr1.replies_sent + 1 }
      let st1 := { st with replied_comment_ids := st.replied_comment_ids.insert comment.id }
      if strOptTruthy rule.inbox_message then
        let ctr3 := { ctr2 with api_calls := ctr2.api_calls + 1 }
        let evs := [Event.matchCheck comment.id, Event.publicReplyPost comment.id rule.reply_message,
          Event.privateReplyPost comment.id ((rule.inbox_message).getD "")]
        match FacebookService.send_private_reply (fb.privateResponse comment.id) with
        | Except.ok _ => ((st1, { ctr3 with inbox_sent := ctr3.inbox_sent + 1 }), evs)
        | Except.error _ => ((st1, ctr3), evs)
      else
        ((st1, ctr2), [Event.matchCheck comment.id, Event.publicReplyPost comment.id rule.reply_message])

/-- One iteration of the comment loop (monitor_service.py lines 106-187):
skip comments already in the dedup set; skip comments authored by the page;
mark-and-skip comments satisfied by nested data; when the reply summary
signals truncation, count the API call and consult the cached remote
existence check, skipping if it reports a reply; otherwise match and reply
via `attemptReply`. -/
def processComment (fb : FacebookStub) (rule : Rule) (sc : MonitorState × CycleCounters)
    (comment : Comment) : (MonitorState × CycleCounters) × List Event :=
  let st := sc.1
  let ctr := sc.2
  if st.replied_comment_ids.contains comment.id then
    ((st, ctr), [])
  else if _is_page_comment comment fb.page_id then
    ((st, ctr), [])
  else if nestedHasReply fb.page_id comment then
    (({ st with replied_comment_ids := st.replied_comment_ids.insert comment.id }, ctr), [])
  else if fallbackNeeded comment then
    let ctr1 := { ctr with api_calls := ctr.api_calls + 1 }
    let r := _has_page_replied fb.hasRepliedResult st comment.id
    if r.1 then
      ((r.2.1, ctr1), r.2.2)
    else
      let ar := attemptReply fb rule r.2.1 ctr1 comment
      (ar.1, r.2.2 ++ ar.2)
  else
    attemptReply fb rule st ctr comment

/-- The comment loop folded over a reel's comments, in fetch order. -/
def processComments (fb : FacebookStub) (rule : Rule) :
    (MonitorState × CycleCounters) → List Comment → (MonitorState × CycleCounters) × List Event
  | sc, [] => (sc, [])
  | sc, c :: rest =>
    let r1 := processComment fb rule sc c
    let r2 := processComments fb rule r1.1 rest
    (r2.1, r1.2 ++ r2.2)

/-- Accumulator of the reel loop: monitor state, the counters, and the
`reels_processed` / `total_comments` tallies. -/
structure ReelAcc where
  st : MonitorState
  ctr : CycleCounters
  reels_processed : Nat
  total_comments : Nat
deriving DecidableEq

/-- The reel loop (monitor_service.py lines 87-187): reels without an
enabled rule are skipped without fetching comments; for a reel with a rule,
count it, fetch and count its comments (one API call) and run the comment
loop. -/
def processReels (fb : FacebookStub) (enabled_rules : List (String × Rule)) :
    ReelAcc → List Reel → ReelAcc × List Event
  | acc, [] => (acc, [])
  | acc, reel :: rest =>
    match List.lookup reel.id enabled_rules with
    | none => processReels fb enabled_rules acc rest
    | some rule =>
      let comments := fb.comments reel.id
      let acc1 : ReelAcc :=
        { acc with
          reels_processed := acc.reels_processed + 1
          total_comments := acc.total_comments + comments.length
          ctr := { acc.ctr with api_calls := acc.ctr.api_calls + 1 } }
      let pc := processComments fb rule (acc1.st, acc1.ctr) comments
      let acc2 : ReelAcc := { acc1 with st := pc.1.1, ctr := pc.1.2 }
      let resRest := processReels fb enabled_rules acc2 rest
      (resRest.1, Event.getComments reel.id :: (pc.2 ++ resRest.2))

/-- The dict returned by `perform_monitoring_cycle`.  `api_calls` is an
`Option` because the zero-rules branch (monitor_service.py lines 64-70)
returns a dict without that key, while the normal return (lines 219-226)
includes it.  `duration_seconds` is the observed wall-clock duration,
supplied to the model as the `elapsed` argument; the zero-rules branch
returns the literal `0.0`. -/
structure CycleResult where
  reels : Nat
  comments : Nat
  replies : Nat
  inbox : Nat
  duration_seconds : Nat
  api_calls : Option Nat
deriving DecidableEq

/-- `MonitorService.perform_monitoring_cycle` (monitor_service.py lines
52-226): filter the rules to the enabled ones and short-circuit with the
zeroed, `api_calls`-less summary when none remain; otherwise fetch the
reels (one API call) and run the reel loop, returning the summary, the
updated instance state, and the trace of actions taken. -/
def perform_monitoring_cycle (fb : FacebookStub) (st0 : MonitorState)
    (rules : List (String × Rule)) (elapsed : Nat) :
    CycleResult × MonitorState × List Event :=
  let enabled_rules := rules.filter (fun kv => kv.2.enabled)
  if enabled_rules.isEmpty then
    ({ reels := 0, comments := 0, replies := 0, inbox := 0, duration_seconds := 0, api_calls := none },
     st0, [])
  else
    let acc0 : ReelAcc :=
      { st := st0, ctr := { api_calls := 1, replies_sent := 0, inbox_sent := 0 },
        reels_processed := 0, total_comments := 0 }
    let res := processReels fb enabled_rules acc0 fb.reels
    ({ reels := res.1.reels_processed, comments := res.1.total_comments,
       replies := res.1.ctr.replies_sent, inbox := res.1.ctr.inbox_sent,
       duration_seconds := elapsed, api_calls := some res.1.ctr.api_calls },
     res.1.st, Event.getReels :: res.2)

end MonitorService

namespace Scheduler

/-- The `job_defaults` dict passed to `BackgroundScheduler` in
`MonitoringScheduler.__init__` (scheduler.py lines 21-29). -/
structure JobDefaults where
  misfire_grace_time : Nat
  coalesce : Bool
  max_instances : Nat
deriving DecidableEq

/-- The concrete defaults of scheduler.py lines 23-29: 30s misfire grace,
coalescing of missed runs, and `max_instances = 5` (annotated in the source
as preventing overlapping runs). -/
def schedulerJobDefaults : JobDefaults :=
  { misfire_grace_time := 30, coalesce := true, max_instances := 5 }

/-- APScheduler's documented run-admission rule for a due tick of a job:
a new run of that job is submitted iff the number of its currently running
instances is strictly below the job's `max_instances`; otherwise the tick
is skipped.  Instantiated at the `job_defaults` of
`MonitoringScheduler.__init__`. -/
def tickStartsRun (running : Nat) : Bool :=
  running < schedulerJobDefaults.max_instances

/-- A tenant key `(user_id, page_id)` as used by `self.jobs` and
`self.last_run` (scheduler.py lines 30-31). -/
abbrev TenantKey := Nat × String

/-- The registry's tenant-to-job map, `self.jobs` together with the
underlying APScheduler job store; the job id
`monitoring_job_user_{user_id}_page_{page_id}` is determined by the tenant
key and the two structures are mutated in lockstep by `_remove_job` /
`_schedule_user_job`, so one association from tenant to interval models
both.  Each entry carries the job's interval in seconds. -/
structure RegistryState where
  jobs : List (TenantKey × Nat) := []
deriving DecidableEq

/-- The per-tenant configuration `_schedule_user_job` consults: the
`monitoringEnabled` flag and the configured interval (already defaulted to
`DEFAULT_INTERVAL_SECONDS` by `get_monitoring_interval_seconds` when
unset). -/
structure TenantConfig where
  monitoring_enabled : Bool
  interval_seconds : Nat
deriving DecidableEq

/-- `MonitoringScheduler._remove_job` (scheduler.py lines 72-79): drop the
tenant's entry from `self.jobs` and the matching job from the scheduler. -/
def _remove_job (jobs : List (TenantKey × Nat)) (t : TenantKey) : List (TenantKey × Nat) :=
  jobs.filter (fun kv => decide (kv.1 ≠ t))

/-- `MonitoringScheduler._schedule_user_job` (scheduler.py lines 81-110):
when monitoring is disabled for the tenant, remove any existing job and
stop; otherwise resolve the interval (explicit argument wins, else the
configured value) and replace any prior job for the tenant with a fresh
interval job under the tenant-determined job id (remove-then-add). -/
def _schedule_user_job (cfg : TenantConfig) (interval_arg : Option Nat)
    (s : RegistryState) (t : TenantKey) : RegistryState :=
  if !cfg.monitoring_enabled then
    { jobs := _remove_job s.jobs t }
  else
    let interval_seconds :=
      match interval_arg with
      | some i => i
      | none => cfg.interval_seconds
    { jobs := (t, interval_seconds) :: _remove_job s.jobs t }

/-- `MonitoringScheduler.reschedule` (scheduler.py lines 145-147): change
the tenant's interval by re-running `_schedule_user_job` with the new
interval. -/
def reschedule (cfg : TenantConfig) (s : RegistryState) (t : TenantKey)
    (interval_seconds : Nat) : RegistryState :=
  _schedule_user_job cfg (some interval_seconds) s t

/-- `MonitoringScheduler.refresh_user_job` (scheduler.py lines 149-151):
re-evaluate the tenant against its config. -/
def refresh_user_job (cfg : TenantConfig) (s : RegistryState) (t : TenantKey) : RegistryState :=
  _schedule_user_job cfg none s t

/-- `MonitoringScheduler._job_func` (scheduler.py lines 37-70): on each
tick, skip when monitoring is disabled or the Facebook configuration is
incomplete; otherwise build a fresh `FacebookService` and a fresh
`MonitorService` (so with `MonitorState.init`, the empty dedup state) and
run one monitoring cycle. -/
def _job_func (monitoring_enabled config_ok : Bool) (fb : FacebookStub)
    (rules : List (String × Rule)) (elapsed : Nat) :
    Option (MonitorService.CycleResult × MonitorService.MonitorState × List Event) :=
  if !monitoring_enabled then none
  else if !config_ok then none
  else some (MonitorService.perform_monitoring_cycle fb MonitorService.MonitorState.init rules elapsed)

end Scheduler

/-- Number of public replies posted in a trace. -/
def countPublicReplies (evs : List Event) : Nat :=
  (evs.filter (fun e =>
    match e with
    | Event.publicReplyPost _ _ => true
    | _ => false)).length

/-- Concrete unanswered user comment that matches the keyword rule. -/
def userComment : Comment :=
  Comment.mk "C1" "what is the price?" (some { id := "U1", name := "User" }) none none false

/-- Concrete fixture: one reel `R1` carrying one unanswered user comment
`C1` that matches the keyword rule; every remote call succeeds. -/
def fbOk : FacebookStub :=
  { page_id := "PAGE"
    reels := [{ id := "R1" }]
    comments := fun _ => [userComment]
    hasRepliedResult := fun _ => Except.ok false
    replyResponse := fun _ => FacebookService.FBHttpResult.success
    privateResponse := fun _ => FacebookService.FBHttpResult.success }

/-- Concrete enabled keyword rule for reel `R1`. -/
def ruleOn : Rule :=
  { object_id := "R1", match_words := ["price"], reply_message := "see inbox",
    inbox_message := none, enabled := true }

/-- The rule map `{R1: ruleOn}`. -/
def rulesOn : List (String × Rule) := [("R1", ruleOn)]

/-- Same fixture but the public-reply POST fails with the Facebook
duplicate-reply error (HTTP 400, body error code 10900). -/
def fbDup : FacebookStub :=
  { fbOk with replyResponse := fun _ => FacebookService.FBHttpResult.httpError 400 (some 10900) }

/-- `ruleOn` with `enabled := false`. -/
def ruleOff : Rule := { ruleOn with enabled := false }

/-- Same fixture but the public-reply POST fails with a transient 500. -/
def fbFail : FacebookStub :=
  { fbOk with replyResponse := fun _ => FacebookService.FBHttpResult.httpError 500 none }

/-- A comment authored by the page itself. -/
def pageComment : Comment :=
  Comment.mk "C9" "hello" (some { id := "PAGE", name := "Page" }) none none false

/-- A user comment whose reply summary reports 3 replies while none were
fetched (truncated nested data). -/
def truncComment : Comment :=
  Comment.mk "C2" "price" (some { id := "U1", name := "User" }) (some []) (some 3) false

/-- Zeroed cycle counters. -/
def ctr0 : MonitorService.CycleCounters :=
  { api_calls := 0, replies_sent := 0, inbox_sent := 0 }

/-- The existence-check callee as actually wired in the shipped code when
every remote fetch fails with an HTTP error: `has_replied_to_comment` is
total and turns the failure into `False`, so the wrapper's callee returns
`Except.ok false` and never raises. -/
def shippedFailingCall : String → Except Unit Bool :=
  fun _ =>
    Except.ok (FacebookService.has_replied_to_comment "PAGE" FacebookService.RepliesFetch.httpError)

/-- A probe oracle whose remote source would now answer `True`; used to
show that a later check does not query the remote source again. -/
def probeCall : String → Except Unit Bool := fun _ => Except.ok true

/-- Concrete registry holding one job for the tenant `(1, "p")`. -/
def regW : Scheduler.RegistryState := { jobs := [((1, "p"), 60)] }

/-- The tenant key `(1, "p")`. -/
def tW : Scheduler.TenantKey := (1, "p")

/-! ## Theorems -/

/-- `beginsWith s sub` holds exactly when `sub` is an initial segment of `s`. -/
theorem beginsWith_iff (sub : List Char) : ∀ s : List Char, beginsWith s sub = true ↔ sub <+: s := by
  induction sub with
  | nil => intro s; simp [beginsWith]
  | cons d ds ih =>
    intro s
    cases s with
    | nil => simp [beginsWith]
    | cons c cs =>
      have hb : beginsWith (c :: cs) (d :: ds) = (c == d && beginsWith cs ds) := rfl
      rw [hb, Bool.and_eq_true, beq_iff_eq, ih cs, List.cons_prefix_cons]
      exact and_congr_left fun _ => eq_comm

/-- `containsSub s sub` holds exactly when `sub` occurs contiguously in `s`,
i.e. Python's `sub in s`. -/
theorem containsSub_iff (sub : List Char) : ∀ s : List Char, containsSub s sub = true ↔ sub <:+: s := by
  intro s
  induction s with
  | nil => simp [containsSub, beginsWith_iff]
  | cons c cs ih => simp [containsSub, beginsWith_iff, ih, List.infix_cons_iff]

/-- Claim C5: for every comment text (including the empty string) and every
rule, `_matches` returns true unconditionally when `match_words` is empty
or contains the literal token `"."`; otherwise it returns true iff some
keyword, case-folded, occurs as a contiguous substring of the case-folded
comment text. -/
theorem C5_rule_matcher (text : String) (rule : Rule) :
    MonitorService._matches text rule = true ↔
      rule.match_words = [] ∨ "." ∈ rule.match_words ∨
        ∃ kw ∈ rule.match_words, lowerChars kw.data <:+: lowerChars text.data := by
  unfold MonitorService._matches
  by_cases h : (rule.match_words.isEmpty || rule.match_words.contains ".") = true
  · rw [if_pos h]
    simp only [true_iff]
    rcases Bool.or_eq_true_iff.mp h with h1 | h1
    · exact Or.inl (List.isEmpty_iff.mp h1)
    · exact Or.inr (Or.inl (List.elem_iff.mp h1))
  · rw [if_neg h]
    have h1 : ¬rule.match_words = [] := by
      intro he
      exact h (by simp [he])
    have h2 : ¬("." ∈ rule.match_words) := by
      intro he
      exact h (by simp [he])
    simp only [List.any_eq_true, containsSub_iff]
    constructor
    · rintro ⟨kw, hkw, hsub⟩
      exact Or.inr (Or.inr ⟨kw, hkw, hsub⟩)
    · rintro (hc | hc | ⟨kw, hkw, hsub⟩)
      · exact absurd hc h1
      · exact absurd hc h2
      · exact ⟨kw, hkw, hsub⟩

/-- Claim C1: refuted by the configuration the scheduler is built with.
`MonitoringScheduler.__init__` sets `max_instances = 5` (not 1), so under
APScheduler's admission rule a tick that fires while one instance of the
tenant's job is still running (indeed up to four) starts another concurrent
cycle; only the fifth concurrent tick is skipped.  This contradicts the
source's own inline comment ("prevent overlapping runs") and the claimed
max-concurrent-instances-per-tenant = 1 policy. -/
theorem C1_overlap_allowed :
    Scheduler.schedulerJobDefaults.max_instances = 5 ∧
    Scheduler.tickStartsRun 1 = true ∧
    Scheduler.tickStartsRun 4 = true ∧
    Scheduler.tickStartsRun 5 = false := by
  decide

/-- Claim C4 counterexample: running the cycle with a single disabled rule
returns the zeroed short-circuit dict, which carries NO `api_calls` key at
all (modeled as `none`), so the summary does not contain an `api_calls`
counter with value zero as the claim states. -/
theorem C4_counterexample :
    (MonitorService.perform_monitoring_cycle fbOk MonitorService.MonitorState.init
        [("R1", ruleOff)] 7).1.api_calls = none ∧
    (MonitorService.perform_monitoring_cycle fbOk MonitorService.MonitorState.init
        [("R1", ruleOff)] 7).1.api_calls ≠ some 0 := by
  decide

/-- Claim C4 (amended): if every rule passed to the cycle is disabled (or
the rule map is empty), the cycle returns the short-circuit summary with
`reels`, `comments`, `replies` and `inbox` at zero and duration 0.0, with
the `api_calls` key omitted from the summary dict (rather than present
with value zero), leaves the instance state untouched, and issues no
remote call at all. -/
theorem C4_zero_rules (fb : FacebookStub) (st : MonitorService.MonitorState)
    (rules : List (String × Rule)) (elapsed : Nat)
    (h : rules.filter (fun kv => kv.2.enabled) = []) :
    MonitorService.perform_monitoring_cycle fb st rules elapsed =
      ({ reels := 0, comments := 0, replies := 0, inbox := 0,
         duration_seconds := 0, api_calls := none }, st, []) := by
  unfold MonitorService.perform_monitoring_cycle
  simp [h]

/-- Witness for `C4_zero_rules` at a concrete disabled-rule map. -/
theorem C4_zero_rules_witness :
    ([("R1", ruleOff)].filter (fun kv : String × Rule => kv.2.enabled) = []) ∧
    MonitorService.perform_monitoring_cycle fbOk MonitorService.MonitorState.init
        [("R1", ruleOff)] 7 =
      ({ reels := 0, comments := 0, replies := 0, inbox := 0,
         duration_seconds := 0, api_calls := none }, MonitorService.MonitorState.init, []) :=
  ⟨by decide, C4_zero_rules fbOk MonitorService.MonitorState.init [("R1", ruleOff)] 7 (by decide)⟩

/-- Claim C3: evaluation at the failing input.  Because
`MonitoringScheduler._job_func` constructs a fresh `MonitorService` (empty
dedup state) on every tick, two scheduled ticks over an unchanged comment
set post the public reply twice (1 + 1 = 2), whereas two cycles run on ONE
long-lived instance (state threaded through) post exactly once: the second
cycle is suppressed by the dedup set.  The executor is therefore per-cycle,
not long-lived per tenant, contradicting the claim (and the source's own
comment about skipping comments processed "in previous cycles"). -/
theorem C3_executor_not_long_lived :
    ((Scheduler._job_func true true fbOk rulesOn 0).elim 0 (fun r => countPublicReplies r.2.2)) +
      ((Scheduler._job_func true true fbOk rulesOn 0).elim 0 (fun r => countPublicReplies r.2.2)) = 2 ∧
    countPublicReplies
      (MonitorService.perform_monitoring_cycle fbOk MonitorService.MonitorState.init rulesOn 0).2.2 = 1 ∧
    countPublicReplies
      (MonitorService.perform_monitoring_cycle fbOk
        (MonitorService.perform_monitoring_cycle fbOk MonitorService.MonitorState.init rulesOn 0).2.1
        rulesOn 0).2.2 = 0 := by
  decide

/-- Claim C2 counterexample: when the remote duplicate-reply condition
(HTTP error with Facebook error code 10900) is reported for the PUBLIC
reply, `reply_to_comment` raises (there is no duplicate-tolerance branch on
that path), and the cycle consequently does NOT mark the comment
known-replied and counts no reply. -/
theorem C2_counterexample :
    FacebookService.reply_to_comment (FacebookService.FBHttpResult.httpError 400 (some 10900)) =
      Except.error 400 ∧
    (MonitorService.perform_monitoring_cycle fbDup MonitorService.MonitorState.init
        rulesOn 0).2.1.replied_comment_ids = [] ∧
    (MonitorService.perform_monitoring_cycle fbDup MonitorService.MonitorState.init
        rulesOn 0).1.replies = 0 :=
  ⟨rfl, by decide, by decide⟩

namespace MonitorService

/-- Branch equation: a comment already in the dedup set is skipped with no
action and no state change. -/
theorem processComment_skip_replied (fb : FacebookStub) (rule : Rule) (st : MonitorState)
    (ctr : CycleCounters) (c : Comment)
    (h1 : st.replied_comment_ids.contains c.id = true) :
    processComment fb rule (st, ctr) c = ((st, ctr), []) := by
  have hm : c.id ∈ st.replied_comment_ids := by simpa using h1
  unfold processComment
  simp [hm]

/-- Branch equation: a page-authored comment is skipped with no action and
no state change. -/
theorem processComment_skip_page (fb : FacebookStub) (rule : Rule) (st : MonitorState)
    (ctr : CycleCounters) (c : Comment)
    (h1 : st.replied_comment_ids.contains c.id = false)
    (h2 : _is_page_comment c fb.page_id = true) :
    processComment fb rule (st, ctr) c = ((st, ctr), []) := by
  have hm : c.id ∉ st.replied_comment_ids := by simpa using h1
  unfold processComment
  simp [hm, h2]

/-- Branch equation: a comment satisfied by nested data is marked replied
and skipped. -/
theorem processComment_mark_nested (fb : FacebookStub) (rule : Rule) (st : MonitorState)
    (ctr : CycleCounters) (c : Comment)
    (h1 : st.replied_comment_ids.contains c.id = false)
    (h2 : _is_page_comment c fb.page_id = false)
    (h3 : nestedHasReply fb.page_id c = true) :
    processComment fb rule (st, ctr) c =
      (({ st with replied_comment_ids := st.replied_comment_ids.insert c.id }, ctr), []) := by
  have hm : c.id ∉ st.replied_comment_ids := by simpa using h1
  unfold processComment
  simp [hm, h2, h3]

/-- Branch equation: with no truncation signal the step goes straight to
match-and-reply. -/
theorem processComment_attempt (fb : FacebookStub) (rule : Rule) (st : MonitorState)
    (ctr : CycleCounters) (c : Comment)
    (h1 : st.replied_comment_ids.contains c.id = false)
    (h2 : _is_page_comment c fb.page_id = false)
    (h3 : nestedHasReply fb.page_id c = false)
    (h4 : fallbackNeeded c = false) :
    processComment fb rule (st, ctr) c = attemptReply fb rule st ctr c := by
  have hm : c.id ∉ st.replied_comment_ids := by simpa using h1
  unfold processComment
  simp [hm, h2, h3, h4]

/-- Branch equation: truncation signal and the (possibly cached) existence
check reports a reply: count the call and skip. -/
theorem processComment_fallback_true (fb : FacebookStub) (rule : Rule) (st : MonitorState)
    (ctr : CycleCounters) (c : Comment)
    (h1 : st.replied_comment_ids.contains c.id = false)
    (h2 : _is_page_comment c fb.page_id = false)
    (h3 : nestedHasReply fb.page_id c = false)
    (h4 : fallbackNeeded c = true)
    (h5 : (_has_page_replied fb.hasRepliedResult st c.id).1 = true) :
    processComment fb rule (st, ctr) c =
      (((_has_page_replied fb.hasRepliedResult st c.id).2.1,
        { ctr with api_calls := ctr.api_calls + 1 }),
       (_has_page_replied fb.hasRepliedResult st c.id).2.2) := by
  have hm : c.id ∉ st.replied_comment_ids := by simpa using h1
  unfold processComment
  simp [hm, h2, h3, h4, h5]

/-- Branch equation: truncation signal, existence check reports no reply,
count the call and continue to match-and-reply. -/
theorem processComment_fallback_false (fb : FacebookStub) (rule : Rule) (st : MonitorState)
    (ctr : CycleCounters) (c : Comment)
    (h1 : st.replied_comment_ids.contains c.id = false)
    (h2 : _is_page_comment c fb.page_id = false)
    (h3 : nestedHasReply fb.page_id c = false)
    (h4 : fallbackNeeded c = true)
    (h5 : (_has_page_replied fb.hasRepliedResult st c.id).1 = false) :
    processComment fb rule (st, ctr) c =
      ((attemptReply fb rule (_has_page_replied fb.hasRepliedResult st c.id).2.1
          { ctr with api_calls := ctr.api_calls + 1 } c).1,
       (_has_page_replied fb.hasRepliedResult st c.id).2.2 ++
         (attemptReply fb rule (_has_page_replied fb.hasRepliedResult st c.id).2.1
            { ctr with api_calls := ctr.api_calls + 1 } c).2) := by
  have hm : c.id ∉ st.replied_comment_ids := by simpa using h1
  unfold processComment
  simp [hm, h2, h3, h4, h5]

/-- The trace of `_has_page_replied` is empty (cache hit) or exactly the
one remote call (cache miss). -/
theorem _has_page_replied_trace (fbCall : String → Except Unit Bool) (st : MonitorState)
    (cid : String) :
    (_has_page_replied fbCall st cid).2.2 = [] ∨
    (_has_page_replied fbCall st cid).2.2 = [Event.hasRepliedCall cid] := by
  unfold _has_page_replied
  cases hc : st.comment_reply_cache.lookup cid with
  | some cached => simp [hc]
  | none =>
    cases hf : fbCall cid with
    | ok b => simp [hc, hf]
    | error e => simp [hc, hf]

/-- On a cache miss the remote call is made, whatever its outcome. -/
theorem _has_page_replied_miss_trace (fbCall : String → Except Unit Bool) (st : MonitorState)
    (cid : String) (hmiss : st.comment_reply_cache.lookup cid = none) :
    (_has_page_replied fbCall st cid).2.2 = [Event.hasRepliedCall cid] := by
  unfold _has_page_replied
  cases hf : fbCall cid with
  | ok b => simp [hmiss, hf]
  | error e => simp [hmiss, hf]

/-- When the check reports `false` the dedup set is untouched. -/
theorem _has_page_replied_false_replied (fbCall : String → Except Unit Bool) (st : MonitorState)
    (cid : String) (h : (_has_page_replied fbCall st cid).1 = false) :
    (_has_page_replied fbCall st cid).2.1.replied_comment_ids = st.replied_comment_ids := by
  unfold _has_page_replied at h ⊢
  cases hc : st.comment_reply_cache.lookup cid with
  | some cached => simp [hc]
  | none =>
    cases hf : fbCall cid with
    | ok b =>
      simp [hc, hf] at h ⊢
      simp [h]
    | error e => simp [hc, hf]

/-- The trace of `attemptReply` never contains a remote existence check. -/
theorem attemptReply_no_hasReplied (fb : FacebookStub) (rule : Rule) (st : MonitorState)
    (ctr : CycleCounters) (c : Comment) (x : String) :
    Event.hasRepliedCall x ∉ (attemptReply fb rule st ctr c).2 := by
  unfold attemptReply
  cases hm : _matches c.message rule with
  | false => simp [hm]
  | true =>
    cases hr : FacebookService.reply_to_comment (fb.replyResponse c.id) with
    | error e => simp [hm, hr]
    | ok u =>
      cases hi : strOptTruthy rule.inbox_message with
      | false => simp [hm, hr, hi]
      | true =>
        cases hp : FacebookService.send_private_reply (fb.privateResponse c.id) with
        | error e => simp [hm, hr, hi, hp]
        | ok u => simp [hm, hr, hi, hp]

/-- When the public reply POST fails, `attemptReply` leaves the monitor
state and the replies-sent counter unchanged and posts no private reply. -/
theorem attemptReply_error (fb : FacebookStub) (rule : Rule) (st : MonitorState)
    (ctr : CycleCounters) (c : Comment) (e : Nat)
    (hfail : FacebookService.reply_to_comment (fb.replyResponse c.id) = Except.error e) :
    (attemptReply fb rule st ctr c).1.1 = st ∧
    (attemptReply fb rule st ctr c).1.2.replies_sent = ctr.replies_sent ∧
    ∀ m, Event.privateReplyPost c.id m ∉ (attemptReply fb rule st ctr c).2 := by
  unfold attemptReply
  cases hm : _matches c.message rule with
  | false => simp [hm]
  | true => simp [hm, hfail]

/-- When the public reply POST fails and actually happened (the post event
is in the step's trace), the per-comment step changes no local state for
the comment: the dedup set is unchanged, the replies-sent counter is
unchanged, and no private reply is posted. -/
theorem processComment_reply_error (fb : FacebookStub) (rule : Rule) (st : MonitorState)
    (ctr : CycleCounters) (c : Comment) (e : Nat)
    (hfail : FacebookService.reply_to_comment (fb.replyResponse c.id) = Except.error e)
    (hatt : Event.publicReplyPost c.id rule.reply_message ∈ (processComment fb rule (st, ctr) c).2) :
    (processComment fb rule (st, ctr) c).1.1.replied_comment_ids = st.replied_comment_ids ∧
    (processComment fb rule (st, ctr) c).1.2.replies_sent = ctr.replies_sent ∧
    ∀ m, Event.privateReplyPost c.id m ∉ (processComment fb rule (st, ctr) c).2 := by
  cases h1 : st.replied_comment_ids.contains c.id with
  | true =>
    rw [processComment_skip_replied fb rule st ctr c h1] at hatt
    simp at hatt
  | false =>
  cases h2 : _is_page_comment c fb.page_id with
  | true =>
    rw [processComment_skip_page fb rule st ctr c h1 h2] at hatt
    simp at hatt
  | false =>
  cases h3 : nestedHasReply fb.page_id c with
  | true =>
    rw [processComment_mark_nested fb rule st ctr c h1 h2 h3] at hatt
    simp at hatt
  | false =>
  cases h4 : fallbackNeeded c with
  | false =>
    rw [processComment_attempt fb rule st ctr c h1 h2 h3 h4]
    have ha := attemptReply_error fb rule st ctr c e hfail
    exact ⟨by rw [ha.1], ha.2.1, ha.2.2⟩
  | true =>
  cases h5 : (_has_page_replied fb.hasRepliedResult st c.id).1 with
  | true =>
    rw [processComment_fallback_true fb rule st ctr c h1 h2 h3 h4 h5] at hatt
    rcases _has_page_replied_trace fb.hasRepliedResult st c.id with ht | ht <;>
      rw [ht] at hatt <;> simp at hatt
  | false =>
    have hrep := _has_page_replied_false_replied fb.hasRepliedResult st c.id h5
    have ha := attemptReply_error fb rule (_has_page_replied fb.hasRepliedResult st c.id).2.1
      { ctr with api_calls := ctr.api_calls + 1 } c e hfail
    rw [processComment_fallback_false fb rule st ctr c h1 h2 h3 h4 h5]
    refine ⟨?_, ?_, ?_⟩
    · rw [ha.1]
      exact hrep
    · rw [ha.2.1]
    · intro m hmem
      rcases List.mem_append.mp hmem with hin | hin
      · rcases _has_page_replied_trace fb.hasRepliedResult st c.id with ht | ht <;>
          rw [ht] at hin <;> simp at hin
      · exact ha.2.2 m hin

/-- Claim C7: if the public reply attempt for a comment fails
(`reply_to_comment` raises), the cycle makes no local state change for that
comment: its id is not added to the dedup set, `replies_sent` is not
incremented, no private inbox reply is attempted for it, and the comment
loop continues with the remaining comments (the failure is caught inside
the loop body), leaving the comment eligible for retry on the next cycle. -/
theorem C7_reply_failure_isolated (fb : FacebookStub) (rule : Rule) (st : MonitorState)
    (ctr : CycleCounters) (c : Comment) (e : Nat)
    (hfail : FacebookService.reply_to_comment (fb.replyResponse c.id) = Except.error e)
    (hatt : Event.publicReplyPost c.id rule.reply_message ∈ (processComment fb rule (st, ctr) c).2) :
    (processComment fb rule (st, ctr) c).1.1.replied_comment_ids = st.replied_comment_ids ∧
    (processComment fb rule (st, ctr) c).1.2.replies_sent = ctr.replies_sent ∧
    (∀ m, Event.privateReplyPost c.id m ∉ (processComment fb rule (st, ctr) c).2) ∧
    (∀ rest, processComments fb rule (st, ctr) (c :: rest) =
      ((processComments fb rule (processComment fb rule (st, ctr) c).1 rest).1,
       (processComment fb rule (st, ctr) c).2 ++
         (processComments fb rule (processComment fb rule (st, ctr) c).1 rest).2)) := by
  have h := processComment_reply_error fb rule st ctr c e hfail hatt
  exact ⟨h.1, h.2.1, h.2.2, fun rest => rfl⟩

/-- Witness for `C7_reply_failure_isolated`: the matching user comment with
a public reply failing with HTTP 500. -/
theorem C7_witness :
    (FacebookService.reply_to_comment (fbFail.replyResponse userComment.id) =
      Except.error 500) ∧
    (Event.publicReplyPost userComment.id ruleOn.reply_message ∈
      (processComment fbFail ruleOn (MonitorState.init, ctr0) userComment).2) ∧
    ((processComment fbFail ruleOn (MonitorState.init, ctr0) userComment).1.1.replied_comment_ids =
        MonitorState.init.replied_comment_ids ∧
     (processComment fbFail ruleOn (MonitorState.init, ctr0) userComment).1.2.replies_sent =
        ctr0.replies_sent ∧
     (∀ m, Event.privateReplyPost userComment.id m ∉
        (processComment fbFail ruleOn (MonitorState.init, ctr0) userComment).2) ∧
     (∀ rest, processComments fbFail ruleOn (MonitorState.init, ctr0) (userComment :: rest) =
       ((processComments fbFail ruleOn
           (processComment fbFail ruleOn (MonitorState.init, ctr0) userComment).1 rest).1,
        (processComment fbFail ruleOn (MonitorState.init, ctr0) userComment).2 ++
          (processComments fbFail ruleOn
            (processComment fbFail ruleOn (MonitorState.init, ctr0) userComment).1 rest).2))) :=
  ⟨rfl, by decide,
    C7_reply_failure_isolated fbFail ruleOn MonitorState.init ctr0 userComment 500 rfl (by decide)⟩

/-- Claim C6: a comment whose author id equals the tenant's page id is
dropped by the per-comment step before any rule evaluation: the step
returns the state and counters unchanged with an empty trace, so in
particular the matcher is never evaluated on it and no public or private
reply is ever posted to it, regardless of the rule. -/
theorem C6_self_reply_suppressed (fb : FacebookStub) (rule : Rule) (st : MonitorState)
    (ctr : CycleCounters) (c : Comment) (u : CommentAuthor)
    (hu : c.from_user = some u) (hid : u.id = fb.page_id) :
    processComment fb rule (st, ctr) c = ((st, ctr), []) ∧
    Event.matchCheck c.id ∉ (processComment fb rule (st, ctr) c).2 ∧
    (∀ m, Event.publicReplyPost c.id m ∉ (processComment fb rule (st, ctr) c).2) ∧
    (∀ m, Event.privateReplyPost c.id m ∉ (processComment fb rule (st, ctr) c).2) := by
  have hpage : _is_page_comment c fb.page_id = true := by
    unfold _is_page_comment
    rw [hu]
    simp [hid]
  have heq : processComment fb rule (st, ctr) c = ((st, ctr), []) := by
    cases h1 : st.replied_comment_ids.contains c.id with
    | true => exact processComment_skip_replied fb rule st ctr c h1
    | false => exact processComment_skip_page fb rule st ctr c h1 hpage
  refine ⟨heq, ?_, ?_, ?_⟩ <;> rw [heq] <;> simp

/-- Witness for `C6_self_reply_suppressed` at a concrete page-authored
comment. -/
theorem C6_witness :
    (pageComment.from_user = some { id := "PAGE", name := "Page" }) ∧
    (({ id := "PAGE", name := "Page" } : CommentAuthor).id = fbOk.page_id) ∧
    (processComment fbOk ruleOn (MonitorState.init, ctr0) pageComment =
      ((MonitorState.init, ctr0), []) ∧
     Event.matchCheck pageComment.id ∉
       (processComment fbOk ruleOn (MonitorState.init, ctr0) pageComment).2 ∧
     (∀ m, Event.publicReplyPost pageComment.id m ∉
       (processComment fbOk ruleOn (MonitorState.init, ctr0) pageComment).2) ∧
     (∀ m, Event.privateReplyPost pageComment.id m ∉
       (processComment fbOk ruleOn (MonitorState.init, ctr0) pageComment).2)) :=
  ⟨rfl, rfl,
    C6_self_reply_suppressed fbOk ruleOn MonitorState.init ctr0 pageComment
      { id := "PAGE", name := "Page" } rfl rfl⟩

/-- `fallbackNeeded` holds exactly when the reply summary is present and
strictly exceeds the number of fetched nested replies. -/
theorem fallbackNeeded_iff (c : Comment) :
    fallbackNeeded c = true ↔
      ∃ n, c.reply_count = some n ∧ ((c.replies).getD []).length < n := by
  unfold fallbackNeeded
  cases hrc : c.reply_count with
  | none => simp [hrc]
  | some n => simp [hrc]

/-- Claim C8: for a comment that reaches the already-satisfied
classification step (not known-replied, not page-authored, not satisfied by
its nested replies), the remote fallback existence call is performed iff
the `reply_count` summary is present and strictly greater than the number
of nested replies returned; when the summary is absent no fallback call is
made; and a performed successful fallback is cached per comment id, so a
repeat check for the same id issues no further remote call and returns the
cached answer with the state unchanged. -/
theorem C8_fallback_truncation_policy (fb : FacebookStub) (rule : Rule) (st : MonitorState)
    (ctr : CycleCounters) (c : Comment)
    (h1 : st.replied_comment_ids.contains c.id = false)
    (h2 : _is_page_comment c fb.page_id = false)
    (h3 : nestedHasReply fb.page_id c = false) :
    (st.comment_reply_cache.lookup c.id = none →
      (Event.hasRepliedCall c.id ∈ (processComment fb rule (st, ctr) c).2 ↔
        ∃ n, c.reply_count = some n ∧ ((c.replies).getD []).length < n)) ∧
    (c.reply_count = none →
      Event.hasRepliedCall c.id ∉ (processComment fb rule (st, ctr) c).2) ∧
    (∀ (fbCall : String → Except Unit Bool) (b : Bool),
      fbCall c.id = Except.ok b → st.comment_reply_cache.lookup c.id = none →
        (_has_page_replied fbCall st c.id).2.2 = [Event.hasRepliedCall c.id] ∧
        ∀ g : String → Except Unit Bool,
          _has_page_replied g (_has_page_replied fbCall st c.id).2.1 c.id =
            ((_has_page_replied fbCall st c.id).1, (_has_page_replied fbCall st c.id).2.1, [])) := by
  refine ⟨?_, ?_, ?_⟩
  · intro hmiss
    cases h4 : fallbackNeeded c with
    | false =>
      rw [processComment_attempt fb rule st ctr c h1 h2 h3 h4]
      constructor
      · intro hmem
        exact absurd hmem (attemptReply_no_hasReplied fb rule st ctr c c.id)
      · intro hex
        have hx := (fallbackNeeded_iff c).mpr hex
        rw [h4] at hx
        cases hx
    | true =>
      have hm := _has_page_replied_miss_trace fb.hasRepliedResult st c.id hmiss
      cases h5 : (_has_page_replied fb.hasRepliedResult st c.id).1 with
      | true =>
        rw [processComment_fallback_true fb rule st ctr c h1 h2 h3 h4 h5, hm]
        simp [(fallbackNeeded_iff c).mp h4]
      | false =>
        rw [processComment_fallback_false fb rule st ctr c h1 h2 h3 h4 h5, hm]
        simp [(fallbackNeeded_iff c).mp h4]
  · intro hnone
    have h4 : fallbackNeeded c = false := by
      unfold fallbackNeeded
      simp [hnone]
    rw [processComment_attempt fb rule st ctr c h1 h2 h3 h4]
    exact attemptReply_no_hasReplied fb rule st ctr c c.id
  · intro fbCall b hok hmiss
    cases b with
    | false =>
      have hval : _has_page_replied fbCall st c.id =
          (false, { st with comment_reply_cache := (c.id, false) :: st.comment_reply_cache },
           [Event.hasRepliedCall c.id]) := by
        unfold _has_page_replied
        simp [hmiss, hok]
      rw [hval]
      refine ⟨rfl, ?_⟩
      intro g
      unfold _has_page_replied
      simp [List.lookup]
    | true =>
      have hval : _has_page_replied fbCall st c.id =
          (true,
           { replied_comment_ids := st.replied_comment_ids.insert c.id,
             comment_reply_cache := (c.id, true) :: st.comment_reply_cache },
           [Event.hasRepliedCall c.id]) := by
        unfold _has_page_replied
        simp [hmiss, hok]
      rw [hval]
      refine ⟨rfl, ?_⟩
      intro g
      unfold _has_page_replied
      simp [List.lookup]

/-- Witness for `C8_fallback_truncation_policy`: a fresh monitor state and
a truncated comment (summary reports 3 replies, none fetched). -/
theorem C8_witness :
    (MonitorState.init.replied_comment_ids.contains truncComment.id = false) ∧
    (_is_page_comment truncComment fbOk.page_id = false) ∧
    (nestedHasReply fbOk.page_id truncComment = false) ∧
    ((MonitorState.init.comment_reply_cache.lookup truncComment.id = none →
      (Event.hasRepliedCall truncComment.id ∈
          (processComment fbOk ruleOn (MonitorState.init, ctr0) truncComment).2 ↔
        ∃ n, truncComment.reply_count = some n ∧
          ((truncComment.replies).getD []).length < n)) ∧
     (truncComment.reply_count = none →
      Event.hasRepliedCall truncComment.id ∉
        (processComment fbOk ruleOn (MonitorState.init, ctr0) truncComment).2) ∧
     (∀ (fbCall : String → Except Unit Bool) (b : Bool),
      fbCall truncComment.id = Except.ok b →
        MonitorState.init.comment_reply_cache.lookup truncComment.id = none →
        (_has_page_replied fbCall MonitorState.init truncComment.id).2.2 =
          [Event.hasRepliedCall truncComment.id] ∧
        ∀ g : String → Except Unit Bool,
          _has_page_replied g
              (_has_page_replied fbCall MonitorState.init truncComment.id).2.1 truncComment.id =
            ((_has_page_replied fbCall MonitorState.init truncComment.id).1,
             (_has_page_replied fbCall MonitorState.init truncComment.id).2.1, []))) :=
  ⟨rfl, by decide, by decide,
    C8_fallback_truncation_policy fbOk ruleOn MonitorState.init ctr0 truncComment rfl
      (by decide) (by decide)⟩

/-- Claim C10 counterexample: with the failure wired as the shipped code
composes it — the remote fetch fails with an HTTP error, so
`has_replied_to_comment` returns `False` without raising and the wrapper's
callee yields `Except.ok false` — the first `_has_page_replied` check for
comment `C1` does return `False`, but it CACHES that failure-induced
`False` (the cache then maps `C1` to `false`), and a later check for the
same comment id — even against a probe oracle whose remote source would now
answer `True` — returns the cached `False` with an empty trace, i.e. it
does not re-query the remote source.  This refutes the claim's
"without caching that failed result, so a later call re-queries" part. -/
theorem C10_counterexample :
    FacebookService.has_replied_to_comment "PAGE" FacebookService.RepliesFetch.httpError = false ∧
    shippedFailingCall "C1" = Except.ok false ∧
    (_has_page_replied shippedFailingCall MonitorState.init "C1").1 = false ∧
    (_has_page_replied shippedFailingCall MonitorState.init
        "C1").2.1.comment_reply_cache.lookup "C1" = some false ∧
    _has_page_replied probeCall
        (_has_page_replied shippedFailingCall MonitorState.init "C1").2.1 "C1" =
      (false, (_has_page_replied shippedFailingCall MonitorState.init "C1").2.1, []) :=
  ⟨rfl, rfl, by decide, by decide, by decide⟩

/-- Claim C10 (amended): `has_replied_to_comment` is total over remote
failures: for every comment id it returns `False` instead of raising on an
HTTP error or any other exception.  Precisely because it never raises, the
executor's cached wrapper receives the failure-induced `False` as an
ordinary result and caches it per comment id, so a later check for the
same comment id returns the cached `False` without querying the remote
source again (whatever the remote would answer by then); the wrapper's
return-without-caching exception branch is unreachable for remote
failures. -/
theorem C10_failure_false_cached (page_id : String) (fbCall : String → Except Unit Bool)
    (st : MonitorState) (cid : String)
    (hmiss : st.comment_reply_cache.lookup cid = none)
    (hfb : fbCall cid = Except.ok false) :
    FacebookService.has_replied_to_comment page_id FacebookService.RepliesFetch.httpError = false ∧
    FacebookService.has_replied_to_comment page_id FacebookService.RepliesFetch.otherError = false ∧
    _has_page_replied fbCall st cid =
      (false, { st with comment_reply_cache := (cid, false) :: st.comment_reply_cache },
       [Event.hasRepliedCall cid]) ∧
    ({ st with comment_reply_cache := (cid, false) :: st.comment_reply_cache } :
        MonitorState).comment_reply_cache.lookup cid = some false ∧
    ∀ g : String → Except Unit Bool,
      _has_page_replied g
          { st with comment_reply_cache := (cid, false) :: st.comment_reply_cache } cid =
        (false, { st with comment_reply_cache := (cid, false) :: st.comment_reply_cache }, []) := by
  refine ⟨rfl, rfl, ?_, ?_, ?_⟩
  · unfold _has_page_replied
    simp [hmiss, hfb]
  · simp [List.lookup]
  · intro g
    unfold _has_page_replied
    simp [List.lookup]

/-- Witness for `C10_failure_false_cached`: a fresh monitor state, comment
`C1`, and the shipped wiring in which every remote fetch fails with an
HTTP error. -/
theorem C10_failure_false_cached_witness :
    (MonitorState.init.comment_reply_cache.lookup "C1" = none) ∧
    (shippedFailingCall "C1" = Except.ok false) ∧
    (FacebookService.has_replied_to_comment "PAGE" FacebookService.RepliesFetch.httpError = false ∧
     FacebookService.has_replied_to_comment "PAGE" FacebookService.RepliesFetch.otherError = false ∧
     _has_page_replied shippedFailingCall MonitorState.init "C1" =
       (false,
        { MonitorState.init with
            comment_reply_cache := ("C1", false) :: MonitorState.init.comment_reply_cache },
        [Event.hasRepliedCall "C1"]) ∧
     ({ MonitorState.init with
          comment_reply_cache := ("C1", false) :: MonitorState.init.comment_reply_cache } :
         MonitorState).comment_reply_cache.lookup "C1" = some false ∧
     ∀ g : String → Except Unit Bool,
       _has_page_replied g
           { MonitorState.init with
               comment_reply_cache := ("C1", false) :: MonitorState.init.comment_reply_cache } "C1" =
         (false,
          { MonitorState.init with
              comment_reply_cache := ("C1", false) :: MonitorState.init.comment_reply_cache },
          [])) :=
  ⟨rfl, rfl, C10_failure_false_cached "PAGE" shippedFailingCall MonitorState.init "C1" rfl rfl⟩

/-- Claim C2 (amended): the duplicate-reply tolerance exists on the PRIVATE
reply path only: `send_private_reply` returns success (`{}`) when Facebook
reports error code 10900.  The PUBLIC reply path (`reply_to_comment`)
raises on the same condition, and the cycle then treats it like any failed
reply attempt: the comment is NOT marked known-replied and no reply is
counted; the failure is swallowed so the cycle continues and the comment
stays eligible for the next cycle. -/
theorem C2_duplicate_only_private (s : Nat) (fb : FacebookStub) (rule : Rule)
    (st : MonitorState) (ctr : CycleCounters) (c : Comment)
    (hdup : fb.replyResponse c.id = FacebookService.FBHttpResult.httpError s (some 10900)) :
    FacebookService.send_private_reply (FacebookService.FBHttpResult.httpError s (some 10900)) =
      Except.ok () ∧
    FacebookService.reply_to_comment (fb.replyResponse c.id) = Except.error s ∧
    (Event.publicReplyPost c.id rule.reply_message ∈ (processComment fb rule (st, ctr) c).2 →
      (processComment fb rule (st, ctr) c).1.1.replied_comment_ids = st.replied_comment_ids ∧
      (processComment fb rule (st, ctr) c).1.2.replies_sent = ctr.replies_sent) := by
  have hfail : FacebookService.reply_to_comment (fb.replyResponse c.id) = Except.error s := by
    rw [hdup]
    rfl
  refine ⟨by simp [FacebookService.send_private_reply], hfail, fun hatt => ?_⟩
  have h := processComment_reply_error fb rule st ctr c s hfail hatt
  exact ⟨h.1, h.2.1⟩

/-- Witness for `C2_duplicate_only_private`: the duplicate-failing stub and
the matching user comment. -/
theorem C2_amended_witness :
    (fbDup.replyResponse userComment.id =
      FacebookService.FBHttpResult.httpError 400 (some 10900)) ∧
    (FacebookService.send_private_reply (FacebookService.FBHttpResult.httpError 400 (some 10900)) =
       Except.ok () ∧
     FacebookService.reply_to_comment (fbDup.replyResponse userComment.id) = Except.error 400 ∧
     (Event.publicReplyPost userComment.id ruleOn.reply_message ∈
        (processComment fbDup ruleOn (MonitorState.init, ctr0) userComment).2 →
       (processComment fbDup ruleOn (MonitorState.init, ctr0) userComment).1.1.replied_comment_ids =
         MonitorState.init.replied_comment_ids ∧
       (processComment fbDup ruleOn (MonitorState.init, ctr0) userComment).1.2.replies_sent =
         ctr0.replies_sent)) :=
  ⟨rfl, C2_duplicate_only_private 400 fbDup ruleOn MonitorState.init ctr0 userComment rfl⟩

end MonitorService

/-- Claim C9: every tenant maps to at most one active timer (the tenant
keys of the job map stay pairwise distinct), and this is preserved by
`_schedule_user_job` — hence by schedule-at-startup, `reschedule`, and
`refresh_user_job`, which all go through it — because it atomically
replaces any prior timer for the tenant (remove-then-add).  Consequently,
after `reschedule(tenant, newInterval)` with monitoring enabled, the
tenant's single job carries `newInterval` (its next tick fires at the new
interval), without the caller performing a separate remove + schedule. -/
theorem C9_single_timer_per_tenant (s : Scheduler.RegistryState) (t : Scheduler.TenantKey)
    (i : Nat) (hnd : (s.jobs.map Prod.fst).Nodup) :
    (∀ (cfg : Scheduler.TenantConfig) (j : Option Nat),
      ((Scheduler._schedule_user_job cfg j s t).jobs.map Prod.fst).Nodup) ∧
    (∀ cfg : Scheduler.TenantConfig, cfg.monitoring_enabled = true →
      (Scheduler.reschedule cfg s t i).jobs = (t, i) :: Scheduler._remove_job s.jobs t ∧
      List.lookup t (Scheduler.reschedule cfg s t i).jobs = some i) := by
  have hrm : ((Scheduler._remove_job s.jobs t).map Prod.fst).Nodup := by
    unfold Scheduler._remove_job
    exact hnd.sublist ((List.filter_sublist s.jobs).map Prod.fst)
  have hnm : t ∉ (Scheduler._remove_job s.jobs t).map Prod.fst := by
    intro hmem
    unfold Scheduler._remove_job at hmem
    rcases List.mem_map.mp hmem with ⟨kv, hkv, hfst⟩
    have hne := (List.mem_filter.mp hkv).2
    rw [decide_eq_true_eq] at hne
    exact hne hfst
  refine ⟨?_, ?_⟩
  · intro cfg j
    unfold Scheduler._schedule_user_job
    cases he : cfg.monitoring_enabled with
    | false => simpa [he] using hrm
    | true =>
      simp only [he, Bool.not_true, Bool.false_eq_true, if_false, List.map_cons]
      exact List.nodup_cons.mpr ⟨hnm, hrm⟩
  · intro cfg he
    have hjobs : (Scheduler.reschedule cfg s t i).jobs =
        (t, i) :: Scheduler._remove_job s.jobs t := by
      unfold Scheduler.reschedule Scheduler._schedule_user_job
      simp [he]
    refine ⟨hjobs, ?_⟩
    rw [hjobs]
    simp [List.lookup]

/-- Witness for `C9_single_timer_per_tenant`: a registry holding one job
for the tenant `(1, "p")`, rescheduled to 120 seconds. -/
theorem C9_witness :
    ((regW.jobs.map Prod.fst).Nodup) ∧
    ((∀ (cfg : Scheduler.TenantConfig) (j : Option Nat),
       ((Scheduler._schedule_user_job cfg j regW tW).jobs.map Prod.fst).Nodup) ∧
     (∀ cfg : Scheduler.TenantConfig, cfg.monitoring_enabled = true →
       (Scheduler.reschedule cfg regW tW 120).jobs =
         (tW, 120) :: Scheduler._remove_job regW.jobs tW ∧
       List.lookup tW (Scheduler.reschedule cfg regW tW 120).jobs = some 120)) :=
  ⟨by decide, C9_single_timer_per_tenant regW tW 120 (by decide)⟩

end Sociwave
